import Mathlib

/-!
Formal model of the corridor-compositing endpoint of app.py (the single-file
Flask application of this repository).  The only algorithmic component is the
merge route (app.py lines 58-223): it parses a JSON request, loads a stored
base image, rasterizes a corridor mask around a user path, fades the outside
toward white, draws an opaque purple boundary ring, draws start/end markers,
alpha-composites the overlay and returns a PNG.

Modelling conventions, used throughout and referred to from the doc comments:

* Python floats are modelled as exact rationals.  Decimal literals of the
  source are mapped to the rationals they denote: 0.5 to 1/2, 0.6 to 3/5,
  0.7 to 7/10, 0.8 to 4/5, 0.9 to 9/10, 1.6 to 8/5.  For every input used
  below the double-precision evaluation of the source produces the same
  numbers, so no rounding gap is exercised.
* int(x) on a number truncates toward zero; round(x) is modelled as half-up
  rounding (no half-integer case is exercised below, so the Python
  half-to-even rule agrees on everything proved here).
* Images are pixel grids: a width, a height, and a pixel function.
* The Pillow raster primitives used by the source (ImageDraw.line with round
  joints, filled and outlined ImageDraw.ellipse, LANCZOS resize) are external
  library code.  They are modelled from the spec as ideal geometric coverage
  with binary (hard-edged) masks at native resolution: section 8 of the spec
  defines corridor membership by point-to-segment distance, and the design
  notes declare the exact resampling filter and pixel-for-pixel parity
  explicitly out of scope.  The 2x supersampled radii of the source
  (stroke_w2 = corridor_px*2*2, r_in = stroke_w2 div 2, edge_w2, r_out)
  divide back exactly to the native radii corridor_px and
  corridor_px + EDGE_THICKNESS_PX used here.
* ImageDraw on an RGBA image REPLACES the pixel value, alpha included; it
  does not blend over the existing pixel.  This replacement semantics is
  modelled literally in overlayPix.
* math.hypot is external and irrational in general; the model carries it as
  an explicit function parameter hypotF, and every concrete instantiation
  below only consults it at arguments with at least one zero component,
  where its exact value is the absolute value of the other component.
-/

attribute [local semireducible] Rat.mul Rat.add Rat.sub Rat.inv Rat.ofScientific

/-- A pair of image-space coordinates, as in the point records of the request. -/
abbrev Q2 : Type := ℚ × ℚ

/-- A 3-channel color value (one natural number per channel, range 0..255). -/
structure RGB where
  r : ℕ
  g : ℕ
  b : ℕ
deriving DecidableEq, Repr

/-- A 4-channel color value with alpha. -/
structure RGBA where
  r : ℕ
  g : ℕ
  b : ℕ
  a : ℕ
deriving DecidableEq, Repr

/-- An image: a size and a pixel function over integer pixel coordinates. -/
structure Img (α : Type) where
  width : ℕ
  height : ℕ
  pix : ℤ → ℤ → α

/-- Python max(0.0, min(1.0, x)), the clamping of app.py lines 85 and 88. -/
def clamp01 (x : ℚ) : ℚ := max 0 (min 1 x)

/-- Python int() applied to a number: truncation toward zero. -/
def truncQ (q : ℚ) : ℤ := if 0 ≤ q then ⌊q⌋ else ⌈q⌉

/-- Python round() on a nonnegative number, modelled as half-up rounding. -/
def roundQ (q : ℚ) : ℤ := ⌊q + 1/2⌋

/-- PURPLE_RGB of app.py line 111. -/
def PURPLE_RGB : RGB := ⟨128, 0, 255⟩

/-- PURPLE_RGBA_OPAQUE of app.py line 112. -/
def PURPLE_RGBA_OPAQUE : RGBA := ⟨128, 0, 255, 255⟩

/-- PURPLE_RGBA_MARKER of app.py line 113: the marker fill color, with alpha
int(round(marker_alpha * 255)). -/
def PURPLE_RGBA_MARKER (markerAlpha : ℚ) : RGBA :=
  ⟨128, 0, 255, (roundQ (markerAlpha * 255)).toNat⟩

/-- The all-white image color of app.py line 137. -/
def WHITE : RGB := ⟨255, 255, 255⟩

/-- Squared euclidean distance between two points. -/
def distSqPt (q a : Q2) : ℚ := (q.1 - a.1) ^ 2 + (q.2 - a.2) ^ 2

/-- Squared distance from a point to a closed segment (the ideal geometry of a
thick stroked segment with round caps is the set of points within half the
stroke width of the segment). -/
def segDistSq (q a b : Q2) : ℚ :=
  let L : ℚ := distSqPt b a
  if L = 0 then distSqPt q a
  else
    let t : ℚ := clamp01 (((q.1 - a.1) * (b.1 - a.1) + (q.2 - a.2) * (b.2 - a.2)) / L)
    distSqPt q (a.1 + t * (b.1 - a.1), a.2 + t * (b.2 - a.2))

/-- The consecutive segments of a polyline. -/
def segments : List Q2 → List (Q2 × Q2)
  | a :: b :: rest => (a, b) :: segments (b :: rest)
  | _ => []

/-- First point of a path (points[0]); total with a harmless default. -/
def firstPt (pts : List Q2) : Q2 := pts.headD (0, 0)

/-- Second point of a path (points[1]); total with a harmless default. -/
def secondPt (pts : List Q2) : Q2 := (pts.drop 1).headD (0, 0)

/-- Last point of a path (points[-1]); total with a harmless default. -/
def lastPt (pts : List Q2) : Q2 := pts.getLastD (0, 0)

/-- Modelled from the spec: ideal coverage of the mask drawn in app.py lines
121-132 and 146-154 — a thick polyline with round joints (dmask.line with
joint curve) together with the two filled end-cap disks (dmask.ellipse), all
of radius rad.  A point is covered iff it is within rad of some path segment
or within rad of one of the two endpoints.  The Pillow rasterizer and the
LANCZOS downsample are external; this is the distance semantics the spec
gives for the same masks. -/
def pathCovered (pts : List Q2) (rad : ℚ) (q : Q2) : Bool :=
  (segments pts).any (fun s => decide (segDistSq q s.1 s.2 ≤ rad ^ 2))
  || decide (distSqPt q (firstPt pts) ≤ rad ^ 2)
  || decide (distSqPt q (lastPt pts) ≤ rad ^ 2)

/-- EDGE_THICKNESS_PX of app.py line 108: max(2, int(0.5 * corridor_px)),
the ring thickness in native pixels. -/
def EDGE_THICKNESS_PX (corridorPx : ℕ) : ℕ := max 2 (corridorPx / 2)

/-- Coverage of the corridor mask of app.py lines 121-134 at native
resolution: the supersampled radius r_in = (corridor_px*2*2) div 2 scales
back to exactly corridor_px native pixels. -/
def corridorCovered (pts : List Q2) (corridorPx : ℕ) (q : Q2) : Bool :=
  pathCovered pts (corridorPx : ℚ) q

/-- Coverage of the outer (wide) ring stroke of app.py lines 146-154: radius
corridor_px + EDGE_THICKNESS_PX in native pixels. -/
def ringOuterCovered (pts : List Q2) (corridorPx : ℕ) (q : Q2) : Bool :=
  pathCovered pts ((corridorPx + EDGE_THICKNESS_PX corridorPx : ℕ) : ℚ) q

/-- Coverage of the ring mask after the carve of app.py lines 156-162: the
wide stroke with the inner corridor stroke and caps reset to zero. -/
def ringCovered (pts : List Q2) (corridorPx : ℕ) (q : Q2) : Bool :=
  ringOuterCovered pts corridorPx q && !corridorCovered pts corridorPx q

/-- MARKER_STROKE_PX of app.py line 184: max(2, int(0.6 * corridor_px)). -/
def markerStrokePx (corridorPx : ℕ) : ℕ :=
  max 2 (⌊(3/5 : ℚ) * corridorPx⌋).toNat

/-- The stroke width actually passed to both marker drawing calls of app.py
lines 189 and 197: MARKER_STROKE_PX // 3 (floor division). -/
def markerWidth (corridorPx : ℕ) : ℕ := markerStrokePx corridorPx / 3

/-- end_r of app.py line 194: int(corridor_px * 0.9). -/
def endR (corridorPx : ℕ) : ℕ := (⌊(9/10 : ℚ) * corridorPx⌋).toNat

/-- tri_height = tri_base = corridor_px * 1.6 of app.py lines 176-177. -/
def triHeight (corridorPx : ℕ) : ℚ := (8/5 : ℚ) * corridorPx

/-- The direction computation of app.py lines 170-173: vx, vy is the vector
from points[0] to points[1], norm is math.hypot(vx, vy) or 1.0 (Python or:
the left operand unless it is falsy, i.e. 0.0), and u = (vx/norm, vy/norm).
The external math.hypot is passed in as hypotF. -/
def dirOf (hypotF : ℚ → ℚ → ℚ) (p0 p1 : Q2) : Q2 :=
  let vx : ℚ := p1.1 - p0.1
  let vy : ℚ := p1.2 - p0.2
  let n : ℚ := hypotF vx vy
  let norm : ℚ := if n = 0 then 1 else n
  (vx / norm, vy / norm)

/-- The triangle outline path of app.py lines 174-182: tip, left, right, tip,
with tip = p0 + u * tri_height, left/right = p0 plus/minus the perpendicular
(-uy, ux) times tri_base/2. -/
def trianglePts (hypotF : ℚ → ℚ → ℚ) (pts : List Q2) (corridorPx : ℕ) : List Q2 :=
  let p0 := firstPt pts
  let p1 := secondPt pts
  let u := dirOf hypotF p0 p1
  let px_ : ℚ := -u.2
  let py_ : ℚ := u.1
  let h := triHeight corridorPx
  let tip : Q2 := (p0.1 + u.1 * h, p0.2 + u.2 * h)
  let lft : Q2 := (p0.1 + px_ * (h / 2), p0.2 + py_ * (h / 2))
  let rgt : Q2 := (p0.1 - px_ * (h / 2), p0.2 - py_ * (h / 2))
  [tip, lft, rgt, tip]

/-- Modelled from the spec: ideal coverage of a stroked polyline of the given
integer width (pd.line of app.py line 189) — the points within width/2 of
some segment.  Pillow draws nothing when the width is 0. -/
def strokeCovered (path : List Q2) (w : ℕ) (q : Q2) : Bool :=
  decide (w ≠ 0) &&
  (segments path).any (fun s => decide (segDistSq q s.1 s.2 ≤ ((w : ℚ) / 2) ^ 2))

/-- Modelled from the spec: ideal coverage of the outlined circle of app.py
lines 194-197 (pd.ellipse with outline and width markerWidth): an annulus of
half-thickness w/2 around the circle of radius end_r centered at the last
path point.  Pillow draws nothing when the width is 0. -/
def circleCovered (pe : Q2) (corridorPx : ℕ) (q : Q2) : Bool :=
  let w := markerWidth corridorPx
  let c : ℚ := (endR corridorPx : ℚ)
  let s : ℚ := (w : ℚ) / 2
  decide (w ≠ 0) &&
  (decide ((max 0 (c - s)) ^ 2 ≤ distSqPt q pe) && decide (distSqPt q pe ≤ (c + s) ^ 2))

/-- Coverage of either marker stroke (triangle outline or end circle outline),
app.py lines 186-205.  Both are drawn with the same fill color, so coverage
order is immaterial. -/
def markersCovered (hypotF : ℚ → ℚ → ℚ) (pts : List Q2) (corridorPx : ℕ) (q : Q2) : Bool :=
  strokeCovered (trianglePts hypotF pts corridorPx) (markerWidth corridorPx) q
  || circleCovered (lastPt pts) corridorPx q

/-- One channel of Image.blend(base, white, fade) of app.py line 138: Pillow
computes in1 + alpha*(in2-in1) in floating point and truncates the
nonnegative result to an integer. -/
def blendChan (c1 c2 : ℕ) (f : ℚ) : ℕ :=
  (⌊(c1 : ℚ) + f * ((c2 : ℚ) - (c1 : ℚ))⌋).toNat

/-- Per-pixel Image.blend of app.py line 138. -/
def blendRGB (c1 c2 : RGB) (f : ℚ) : RGB :=
  ⟨blendChan c1.r c2.r f, blendChan c1.g c2.g f, blendChan c1.b c2.b f⟩

/-- The out image of app.py lines 136-140 at one pixel: outside is the blend
of base toward white by outside_fade, and out.paste(base, mask=mask) restores
the base pixel wherever the (binary, see the module comment) corridor mask
covers. -/
def outPix (base : Img RGB) (pts : List Q2) (corridorPx : ℕ) (fade : ℚ) (x y : ℤ) : RGB :=
  if corridorCovered pts corridorPx ((x : ℚ), (y : ℚ)) then base.pix x y
  else blendRGB (base.pix x y) WHITE fade

/-- The purple overlay layer of app.py lines 165-205 at one pixel:
Image.composite(purple_solid, transparent, ring_mask) puts the opaque purple
wherever the ring mask covers, and the two marker drawing calls then REPLACE
the pixel (alpha included) with PURPLE_RGBA_MARKER wherever a marker stroke
covers — ImageDraw does not blend. -/
def overlayPix (hypotF : ℚ → ℚ → ℚ) (pts : List Q2) (corridorPx : ℕ)
    (markerAlpha : ℚ) (q : Q2) : RGBA :=
  let afterRing : RGBA :=
    if ringCovered pts corridorPx q then PURPLE_RGBA_OPAQUE else ⟨0, 0, 0, 0⟩
  if markersCovered hypotF pts corridorPx q then PURPLE_RGBA_MARKER markerAlpha
  else afterRing

/-- An RGB pixel as an opaque RGBA pixel (out.convert(RGBA), app.py line 208). -/
def toRGBA (c : RGB) : RGBA := ⟨c.r, c.g, c.b, 255⟩

/-- Image.alpha_composite(bg, fg) of app.py line 209 at one pixel: standard
source-over compositing with alphas scaled to 0..1, results rounded back to
integer channels.  (Exact on the binary foreground alphas produced by the
hard-edged masks of this model.) -/
def alphaCompositePix (bg fg : RGBA) : RGBA :=
  let af : ℚ := (fg.a : ℚ) / 255
  let ab : ℚ := (bg.a : ℚ) / 255
  let ao : ℚ := af + ab * (1 - af)
  if ao = 0 then ⟨0, 0, 0, 0⟩
  else
    ⟨(roundQ (((fg.r : ℚ) * af + (bg.r : ℚ) * ab * (1 - af)) / ao)).toNat,
     (roundQ (((fg.g : ℚ) * af + (bg.g : ℚ) * ab * (1 - af)) / ao)).toNat,
     (roundQ (((fg.b : ℚ) * af + (bg.b : ℚ) * ab * (1 - af)) / ao)).toNat,
     (roundQ (ao * 255)).toNat⟩

/-- The final composited pixel of app.py lines 136-209: the faded/restored
out image, converted to RGBA, under the purple overlay. -/
def mergeOutPix (base : Img RGB) (pts : List Q2) (corridorPx : ℕ)
    (fade markerAlpha : ℚ) (hypotF : ℚ → ℚ → ℚ) (x y : ℤ) : RGBA :=
  alphaCompositePix (toRGBA (outPix base pts corridorPx fade x y))
    (overlayPix hypotF pts corridorPx markerAlpha ((x : ℚ), (y : ℚ)))

/-- The full successful pipeline of app.py lines 120-209 as an image: every
stage (corridor mask, fade and restore, ring, markers, final composite) is
applied at every pixel; the size is the size of the base image. -/
def mergePipeline (base : Img RGB) (pts : List Q2) (corridorPx : ℕ)
    (fade markerAlpha : ℚ) (hypotF : ℚ → ℚ → ℚ) : Img RGBA :=
  ⟨base.width, base.height, fun x y => mergeOutPix base pts corridorPx fade markerAlpha hypotF x y⟩

/-- JSON values as delivered by request.get_json: null, numbers (integers and
floats alike, both exact rationals here), strings, booleans, arrays and
objects. -/
inductive JVal : Type where
  | null : JVal
  | num : ℚ → JVal
  | str : String → JVal
  | bool : Bool → JVal
  | arr : List JVal → JVal
  | obj : List (String × JVal) → JVal

/-- Python truthiness of a JSON-decoded value: None, 0, empty string, empty
list and empty dict are falsy. -/
def truthy : JVal → Bool
  | .null => false
  | .num q => decide (q ≠ 0)
  | .str s => !s.isEmpty
  | .bool b => b
  | .arr l => !l.isEmpty
  | .obj l => !l.isEmpty

/-- dict.get(key): the stored value, or None when the key is absent. -/
def getJ (d : List (String × JVal)) (k : String) : JVal :=
  match d.find? (fun p => p.1 == k) with
  | some p => p.2
  | none => .null

/-- Python x or y on JSON values: x unless x is falsy. -/
def pyOr (x y : JVal) : JVal := if truthy x then x else y

/-- Whether a JSON value is null (Python None). -/
def isNull : JVal → Bool
  | .null => true
  | _ => false

/-- Python x if x is not None else d, as in app.py lines 84 and 87. -/
def pyDefault (x d : JVal) : JVal := if isNull x then d else x

/-- The Python exceptions that the merge route can raise. -/
inductive PyExn : Type where
  | valueError : String → PyExn
  | typeError : String → PyExn
  | attributeError : String → PyExn
deriving DecidableEq, Repr

/-- Decimal digit value of a character. -/
def digitVal (c : Char) : Option ℕ :=
  if 48 ≤ c.toNat ∧ c.toNat ≤ 57 then some (c.toNat - 48) else none

/-- Accumulating decimal reading of a digit list; none on a non-digit. -/
def digitsValAux : ℕ → List Char → Option ℕ
  | acc, [] => some acc
  | acc, c :: rest =>
    match digitVal c with
    | some d => digitsValAux (10 * acc + d) rest
    | none => none

/-- Python int(s) on a string: an optional sign followed by at least one
decimal digit, else a ValueError (modelled without the whitespace stripping
and underscore grouping of Python, which no input below uses). -/
def pyIntOfStr (s : String) : Option ℤ :=
  match s.toList with
  | [] => none
  | '-' :: rest =>
    if rest.isEmpty then none else (digitsValAux 0 rest).map (fun n => -(n : ℤ))
  | '+' :: rest =>
    if rest.isEmpty then none else (digitsValAux 0 rest).map (fun n => (n : ℤ))
  | l => (digitsValAux 0 l).map (fun n => (n : ℤ))

/-- Python int(x) as used in app.py line 81: numbers truncate toward zero,
booleans become 0 or 1, strings parse as integer literals or raise
ValueError, anything else raises TypeError. -/
def pyInt : JVal → Except PyExn ℤ
  | .num q => .ok (truncQ q)
  | .bool b => .ok (if b then 1 else 0)
  | .str s =>
    match pyIntOfStr s with
    | some n => .ok n
    | none => .error (.valueError "invalid literal for int() with base 10")
  | .null => .error (.typeError "int() argument must not be NoneType")
  | .arr _ => .error (.typeError "int() argument must be a string or a number")
  | .obj _ => .error (.typeError "int() argument must be a string or a number")

/-- Python float(x) as used in app.py lines 84 and 87 (same shape as pyInt;
fractional decimal strings are not modelled, no input below uses one). -/
def pyFloat : JVal → Except PyExn ℚ
  | .num q => .ok q
  | .bool b => .ok (if b then 1 else 0)
  | .str s =>
    match pyIntOfStr s with
    | some n => .ok (n : ℚ)
    | none => .error (.valueError "could not convert string to float")
  | .null => .error (.typeError "float() argument must not be NoneType")
  | .arr _ => .error (.typeError "float() argument must be a string or a number")
  | .obj _ => .error (.typeError "float() argument must be a string or a number")

/-- One point record of the request: an object with numeric x and y (app.py
line 118 reads p[x] and p[y] and multiplies by the scale).  Any other shape
raises inside the try block of the source; extraction failure stands for
that exception. -/
def asPoint : JVal → Option Q2
  | .obj d =>
    match getJ d "x", getJ d "y" with
    | .num x, .num y => some (x, y)
    | _, _ => none
  | _ => none

/-- All point records of the request, in order. -/
def extractPts : List JVal → Option (List Q2)
  | [] => some []
  | v :: rest =>
    match asPoint v, extractPts rest with
    | some p, some ps => some (p :: ps)
    | _, _ => none

/-- A stored upload: either bytes that Image.open can decode (carrying the
decoded RGBA raster) or bytes it cannot (Image.open raises). -/
inductive BaseFile : Type where
  | decodable : Img RGBA → BaseFile
  | corrupt : BaseFile

/-- The upload directory: file name to stored file. -/
structure Store where
  files : List (String × BaseFile)

/-- First stored file under a given name, if any. -/
def lookupL : List (String × BaseFile) → String → Option BaseFile
  | [], _ => none
  | p :: rest, s =>
    match p.1 == s with
    | true => some p.2
    | false => lookupL rest s

/-- Path lookup: UPLOAD_DIR / image_id exists iff the name is stored. -/
def Store.lookup (st : Store) (s : String) : Option BaseFile :=
  lookupL st.files s

/-- base.convert(RGB) of app.py line 99: Pillow drops the alpha channel of an
RGBA image without compositing it against anything. -/
def convertRGB (im : Img RGBA) : Img RGB :=
  ⟨im.width, im.height, fun x y => ⟨(im.pix x y).r, (im.pix x y).g, (im.pix x y).b⟩⟩

/-- The PNG bytes returned on success: PNG is lossless, so the payload is the
RGBA image it encodes (out_final.save(buf, format=PNG), app.py line 213). -/
structure PNGData : Type where
  img : Img RGBA

/-- The observable outcome of one request to the merge route:
errorJson m c is jsonify({error: m}) with HTTP status c (400 and 404 mark
bad input, 500 is the generic internal failure of the blanket except),
unhandled e is an exception escaping the handler (Flask turns it into a
generic 500 Internal Server Error page), png is the successful image
response. -/
inductive MergeResp : Type where
  | errorJson : String → ℕ → MergeResp
  | unhandled : PyExn → MergeResp
  | png : PNGData → MergeResp

/-- Whether a response carries the bad-input classification (the explicit
jsonify rejections with status 400 or 404).  The generic internal failures
(status 500 and unhandled exceptions) are not input errors. -/
def isInputError : MergeResp → Bool
  | .errorJson _ c => c == 400 || c == 404
  | _ => false

/-- A merge outcome together with whether any mask rasterization step ran. -/
structure MergeOutcome : Type where
  resp : MergeResp
  rasterized : Bool

/-- The request after the parameter phase of app.py lines 75-95. -/
structure ParsedReq : Type where
  iid : String
  points : JVal
  corridor : ℤ
  fade : ℚ
  ma : ℚ

/-- The parameter phase of the merge route, app.py lines 75-95, in source
order: reject a missing or falsy JSON body (400 invalid JSON); a truthy
non-dict body raises AttributeError at data.get (unhandled); corridor_px =
int(data.get(corridor_px) or 0) can raise out of the handler (line 81 is
before the try); so can float() for outside_fade and marker_alpha (lines
84-87), after which both are clamped to [0,1]; a falsy image_id, falsy
points or corridor_px <= 0 is rejected with 400 (line 90); building the
file path with a truthy non-string image_id raises TypeError out of the
handler (line 93). -/
def parsePhase : Option JVal → Except MergeResp ParsedReq
  | none => .error (.errorJson "invalid JSON" 400)
  | some data =>
    if truthy data then
      match data with
      | .obj d =>
        let imageId := getJ d "image_id"
        let points := pyOr (getJ d "points") (.arr [])
        match pyInt (pyOr (getJ d "corridor_px") (.num 0)) with
        | .error e => .error (.unhandled e)
        | .ok corridor =>
          match pyFloat (pyDefault (getJ d "outside_fade") (.num (4/5))) with
          | .error e => .error (.unhandled e)
          | .ok fadeRaw =>
            let fade := clamp01 fadeRaw
            match pyFloat (pyDefault (getJ d "marker_alpha") (.num (7/10))) with
            | .error e => .error (.unhandled e)
            | .ok maRaw =>
              let ma := clamp01 maRaw
              if truthy imageId && truthy points && decide (0 < corridor) then
                match imageId with
                | .str s => .ok ⟨s, points, corridor, fade, ma⟩
                | _ => .error (.unhandled (.typeError "unsupported operand type for div"))
              else .error (.errorJson "missing image_id, points, or corridor_px" 400)
      | _ => .error (.unhandled (.attributeError "object has no attribute get"))
    else .error (.errorJson "invalid JSON" 400)

/-- The body of the try block after a successful Image.open, app.py lines
99-220: convert to RGB, reject fewer than 2 points with 400 (line 116,
before any mask drawing), extract the point coordinates (line 118; a
malformed record raises and the blanket except maps it to 500), then run the
full rasterization and compositing pipeline and return the PNG.  Only this
last branch performs mask rasterization. -/
def afterDecode (im : Img RGBA) (req : ParsedReq) (hypotF : ℚ → ℚ → ℚ) : MergeOutcome :=
  match req.points with
  | .arr l =>
    if l.length < 2 then ⟨.errorJson "need at least 2 points" 400, false⟩
    else
      match extractPts l with
      | none => ⟨.errorJson "merge failed: unsupported point record" 500, false⟩
      | some pts =>
        ⟨.png ⟨mergePipeline (convertRGB im) pts req.corridor.toNat req.fade req.ma hypotF⟩,
          true⟩
  | _ => ⟨.errorJson "merge failed: object has no len()" 500, false⟩

/-- The merge route of app.py lines 58-223: parameter phase, then the
path.exists check of line 94 (404 when the name is not stored), then the try
block: Image.open of an undecodable file raises and the blanket except of
line 222 returns the generic 500 (merge failed), otherwise the decoded image
flows into afterDecode. -/
def merge (st : Store) (hypotF : ℚ → ℚ → ℚ) (body : Option JVal) : MergeOutcome :=
  match parsePhase body with
  | .error r => ⟨r, false⟩
  | .ok req =>
    match st.lookup req.iid with
    | none => ⟨.errorJson "image not found" 404, false⟩
    | some .corrupt => ⟨.errorJson "merge failed: cannot identify image file" 500, false⟩
    | some (.decodable im) => afterDecode im req hypotF

/-- Concrete stand-in for the external math.hypot, exact at every argument
pair with a zero component (math.hypot(v, 0) = math.hypot(0, v) = abs v,
math.hypot(0, 0) = 0.0); no theorem below consults it elsewhere. -/
def hypotModel (x y : ℚ) : ℚ :=
  if x = 0 then |y| else if y = 0 then |x| else |x| + |y|

/-- A 20 by 20 all-black base image (gray value 0 on every channel). -/
def base0 : Img RGB := ⟨20, 20, fun _ _ => ⟨0, 0, 0⟩⟩

/-- A 2-point path along the x axis, from (0,0) to (1,0). -/
def pts0 : List Q2 := [(0, 0), (1, 0)]

/-- An empty upload directory. -/
def store0 : Store := ⟨[]⟩

/-- A 20 by 20 stored RGBA image with constant pixel (7, 7, 7, 255). -/
def im0 : Img RGBA := ⟨20, 20, fun _ _ => ⟨7, 7, 7, 255⟩⟩

/-- A store holding the single decodable upload a.png. -/
def store1 : Store := ⟨[("a.png", .decodable im0)]⟩

/-- A JSON point record. -/
def pjson (x y : ℚ) : JVal := .obj [("x", .num x), ("y", .num y)]

/-- A fully valid merge request body against store1: image a.png, the path
pts0, corridor_px 5, outside_fade 0, marker_alpha 1. -/
def body1 : Option JVal := some (.obj
  [("image_id", .str "a.png"),
   ("points", .arr [pjson 0 0, pjson 1 0]),
   ("corridor_px", .num 5),
   ("outside_fade", .num 0),
   ("marker_alpha", .num 1)])

theorem roundQ_natCast (n : ℕ) : roundQ ((n : ℚ)) = (n : ℤ) := by
  unfold roundQ
  rw [Int.floor_eq_iff]
  constructor
  · push_cast
    linarith
  · push_cast
    linarith

theorem truncQ_intCast (z : ℤ) : truncQ ((z : ℚ)) = z := by
  unfold truncQ
  split
  · exact Int.floor_intCast z
  · exact Int.ceil_intCast z

/-- Compositing a fully transparent foreground pixel over an opaque
background pixel returns the background pixel. -/
theorem alphaComposite_clear (c : RGB) :
    alphaCompositePix (toRGBA c) ⟨0, 0, 0, 0⟩ = toRGBA c := by
  unfold alphaCompositePix toRGBA
  norm_num
  refine ⟨?_, ?_, ?_, ?_⟩ <;> first
  | simp [roundQ_natCast]
  | decide

/-- Compositing any foreground pixel over an opaque background pixel yields
an opaque pixel. -/
theorem alphaComposite_alpha (bg fg : RGBA) (hb : bg.a = 255) :
    (alphaCompositePix bg fg).a = 255 := by
  unfold alphaCompositePix
  dsimp only
  rw [hb]
  have h1 : ((255 : ℕ) : ℚ) / 255 = 1 := by norm_num
  rw [h1]
  have h2 : (fg.a : ℚ) / 255 + 1 * (1 - (fg.a : ℚ) / 255) = 1 := by ring
  rw [h2]
  norm_num
  decide

theorem blendChan_mono (c : ℕ) (f1 f2 : ℚ) (hc : c ≤ 255) (h0 : 0 ≤ f1)
    (h12 : f1 ≤ f2) : blendChan c 255 f1 ≤ blendChan c 255 f2 := by
  unfold blendChan
  apply Int.toNat_le_toNat
  apply Int.floor_le_floor
  push_cast
  have hc2 : (0 : ℚ) ≤ (255 : ℚ) - (c : ℚ) := by
    have hcq : (c : ℚ) ≤ 255 := by exact_mod_cast hc
    linarith
  have hm2 := mul_le_mul_of_nonneg_right h12 hc2
  linarith

theorem blendChan_zero (c : ℕ) : blendChan c 255 0 = c := by
  unfold blendChan
  simp

theorem blendChan_one (c : ℕ) : blendChan c 255 1 = 255 := by
  unfold blendChan
  push_cast
  have h : (c : ℚ) + 1 * ((255 : ℚ) - (c : ℚ)) = (255 : ℚ) := by
    ring
  rw [h]
  decide

/-- Claim C1, counterexample.  With base0, the path pts0, corridor_px 5,
outside_fade 0 and the exact hypot value hypotModel, pixel (7, 0) is covered
by the opaque boundary ring, yet the two outputs that differ only in
marker_alpha (0 versus 1) disagree there: the triangle outline passes
through the ring band and its drawing call replaces the opaque ring pixel
(alpha included) with the marker alpha. -/
theorem C1_cex :
    ringCovered pts0 5 ((7 : ℚ), (0 : ℚ)) = true ∧
    mergeOutPix base0 pts0 5 0 0 hypotModel 7 0 ≠ mergeOutPix base0 pts0 5 0 1 hypotModel 7 0 := by
  decide

/-- Claim C1, amended: the markers are drawn by replacing overlay pixels, so
a ring-covered pixel keeps the opaque edge color — and the final output is
therefore independent of marker_alpha — only where no marker stroke covers
it.  On such pixels the overlay equals PURPLE_RGBA_OPAQUE and any two runs
differing only in marker_alpha produce the same output pixel. -/
theorem C1_amended (base : Img RGB) (pts : List Q2) (corridorPx : ℕ)
    (fade a1 a2 : ℚ) (hF : ℚ → ℚ → ℚ) (x y : ℤ)
    (hr : ringCovered pts corridorPx ((x : ℚ), (y : ℚ)) = true)
    (hm : markersCovered hF pts corridorPx ((x : ℚ), (y : ℚ)) = false) :
    overlayPix hF pts corridorPx a1 ((x : ℚ), (y : ℚ)) = PURPLE_RGBA_OPAQUE ∧
    mergeOutPix base pts corridorPx fade a1 hF x y
      = mergeOutPix base pts corridorPx fade a2 hF x y := by
  have h1 : overlayPix hF pts corridorPx a1 ((x : ℚ), (y : ℚ)) = PURPLE_RGBA_OPAQUE := by
    unfold overlayPix
    simp [hr, hm]
  have h2 : overlayPix hF pts corridorPx a2 ((x : ℚ), (y : ℚ)) = PURPLE_RGBA_OPAQUE := by
    unfold overlayPix
    simp [hr, hm]
  refine ⟨h1, ?_⟩
  unfold mergeOutPix
  rw [h1, h2]

/-- Claim C1, witness: the amended statement at base0, pts0, corridor_px 5,
marker alphas 0 and 1, and the ring pixel (0, 6), which no marker covers. -/
theorem C1_witness :
    overlayPix hypotModel pts0 5 0 ((0 : ℚ), (6 : ℚ)) = PURPLE_RGBA_OPAQUE ∧
    mergeOutPix base0 pts0 5 0 0 hypotModel 0 6 = mergeOutPix base0 pts0 5 0 1 hypotModel 0 6 :=
  C1_amended base0 pts0 5 0 0 1 hypotModel 0 6 (by decide) (by decide)

/-- Claim C2, counterexample.  Pixel (0, 6) has distance 6 to the single
path segment of pts0 and to both endpoint caps, strictly greater than
corridor_px = 5, so the claim asserts it equals the fade blend and carries
no ring color; but it lies in the ring band (corridor radius 5 plus edge
thickness 2) and the output there is the opaque purple, not the blend of
the black base pixel toward white. -/
theorem C2_cex :
    corridorCovered pts0 5 ((0 : ℚ), (6 : ℚ)) = false ∧
    ringCovered pts0 5 ((0 : ℚ), (6 : ℚ)) = true ∧
    mergeOutPix base0 pts0 5 0 1 hypotModel 0 6
      ≠ toRGBA (blendRGB (base0.pix 0 6) WHITE 0) := by
  decide

/-- Claim C2, amended: a pixel strictly outside the corridor AND outside the
ring band AND not covered by either marker stroke equals the per-channel
blend lerp(basePixel, white, outsideFade) (opaque), carrying no ring or
marker color.  (The original claim requires only distance > corridorRadiusPx,
but the ring band and parts of the markers lie beyond that distance.) -/
theorem C2_amended (base : Img RGB) (pts : List Q2) (corridorPx : ℕ)
    (fade ma : ℚ) (hF : ℚ → ℚ → ℚ) (x y : ℤ)
    (hc : corridorCovered pts corridorPx ((x : ℚ), (y : ℚ)) = false)
    (hr : ringCovered pts corridorPx ((x : ℚ), (y : ℚ)) = false)
    (hm : markersCovered hF pts corridorPx ((x : ℚ), (y : ℚ)) = false) :
    mergeOutPix base pts corridorPx fade ma hF x y
      = toRGBA (blendRGB (base.pix x y) WHITE fade) := by
  unfold mergeOutPix
  have ho : overlayPix hF pts corridorPx ma ((x : ℚ), (y : ℚ)) = ⟨0, 0, 0, 0⟩ := by
    unfold overlayPix
    simp [hr, hm]
  have hout : outPix base pts corridorPx fade x y = blendRGB (base.pix x y) WHITE fade := by
    unfold outPix
    simp [hc]
  rw [ho, hout, alphaComposite_clear]

/-- Claim C2, witness: the amended statement at base0, pts0, corridor_px 5,
fade 0, marker_alpha 1 and the far pixel (15, 15). -/
theorem C2_witness :
    mergeOutPix base0 pts0 5 0 1 hypotModel 15 15
      = toRGBA (blendRGB (base0.pix 15 15) WHITE 0) :=
  C2_amended base0 pts0 5 0 1 hypotModel 15 15 (by decide) (by decide) (by decide)

/-- Claim C4, counterexample.  At corridor_px = 1 the drawn stroke width is
MARKER_STROKE_PX // 3 = max(2, int(0.6)) // 3 = 2 // 3 = 0, so the claimed
lower bound of 1 fails (and Pillow draws no stroke at width 0). -/
theorem C4_cex : markerWidth 1 = 0 ∧ ¬ (1 ≤ markerWidth 1) := by
  decide

/-- Claim C4, amended: the stroke width used for both marker outlines is
max(2, int(0.6 * corridor_px)) // 3 (integer floor division); it is at least
1 exactly when corridor_px is at least 5, and it is 0 — not at least 1 — for
corridor_px at most 4. -/
theorem C4_amended (corridorPx : ℕ) :
    markerWidth corridorPx = max 2 (3 * corridorPx / 5) / 3 ∧
    (1 ≤ markerWidth corridorPx ↔ 5 ≤ corridorPx) := by
  have hk : (⌊(3/5 : ℚ) * (corridorPx : ℚ)⌋).toNat = 3 * corridorPx / 5 := by
    have h1 : (3/5 : ℚ) * (corridorPx : ℚ) = ((3 * corridorPx : ℕ) : ℚ) / ((5 : ℕ) : ℚ) := by
      push_cast
      ring
    rw [h1, Int.floor_toNat, Nat.floor_div_nat, Nat.floor_natCast]
  have hw : markerWidth corridorPx = max 2 (3 * corridorPx / 5) / 3 := by
    unfold markerWidth markerStrokePx
    rw [hk]
  refine ⟨hw, ?_⟩
  rw [hw]
  omega

/-- Claim C5, counterexample.  For the path whose first two points both equal
(10, 10) and corridor_px = 5, the source computes norm = hypot(0,0) or 1.0 =
1.0 and u = (0/1, 0/1) = (0, 0): the zero vector, not a unit vector along a
fixed axis.  The triangle degenerates to the single point (10, 10), whose
distance to the first path point is 0, not 1.6 * corridor_px = 8. -/
theorem C5_cex :
    dirOf hypotModel (10, 10) (10, 10) = (0, 0) ∧
    trianglePts hypotModel [((10 : ℚ), (10 : ℚ)), (10, 10)] 5
      = [(10, 10), (10, 10), (10, 10), (10, 10)] ∧
    distSqPt (10, 10) (10, 10) ≠ (triHeight 5) ^ 2 := by
  decide

/-- Claim C5, amended: when the first two path points coincide, the or-branch
only replaces the zero norm by 1.0, so the direction vector u becomes the
zero vector (no fixed axis is substituted) and every triangle vertex — tip
included — collapses onto the first path point. -/
theorem C5_amended (hF : ℚ → ℚ → ℚ) (p : Q2) (rest : List Q2) (corridorPx : ℕ)
    (h0 : hF 0 0 = 0) :
    dirOf hF p p = (0, 0) ∧
    trianglePts hF (p :: p :: rest) corridorPx = [p, p, p, p] := by
  have hd : dirOf hF p p = (0, 0) := by
    unfold dirOf
    simp [sub_self, h0]
  refine ⟨hd, ?_⟩
  unfold trianglePts
  simp only [firstPt, secondPt, List.headD, List.drop, hd]
  simp [Prod.mk.eta]

/-- Claim C5, witness: the amended statement at the coincident pair (3, 4),
corridor_px 7 and the exact hypot stand-in hypotModel. -/
theorem C5_witness :
    dirOf hypotModel (3, 4) (3, 4) = (0, 0) ∧
    trianglePts hypotModel [((3 : ℚ), (4 : ℚ)), (3, 4)] 7
      = [(3, 4), (3, 4), (3, 4), (3, 4)] :=
  C5_amended hypotModel (3, 4) [] 7 (by decide)

/-- Claim C7: on a pixel outside the corridor the out image is exactly the
blend of the base pixel toward white, and that blend is monotone in the fade:
for 0 <= f1 <= f2 <= 1 every channel under f2 is at least the channel under
f1 (hence at least as close to white 255), with the blend giving back the
base pixel at fade 0 and pure white at fade 1. -/
theorem C7_thm (base : Img RGB) (pts : List Q2) (corridorPx : ℕ)
    (f1 f2 : ℚ) (x y : ℤ)
    (h0 : 0 ≤ f1) (h12 : f1 ≤ f2) (h21 : f2 ≤ 1)
    (hcr : (base.pix x y).r ≤ 255) (hcg : (base.pix x y).g ≤ 255)
    (hcb : (base.pix x y).b ≤ 255)
    (hc : corridorCovered pts corridorPx ((x : ℚ), (y : ℚ)) = false) :
    outPix base pts corridorPx f1 x y = blendRGB (base.pix x y) WHITE f1 ∧
    ((blendRGB (base.pix x y) WHITE f1).r ≤ (blendRGB (base.pix x y) WHITE f2).r ∧
     (blendRGB (base.pix x y) WHITE f1).g ≤ (blendRGB (base.pix x y) WHITE f2).g ∧
     (blendRGB (base.pix x y) WHITE f1).b ≤ (blendRGB (base.pix x y) WHITE f2).b) ∧
    blendRGB (base.pix x y) WHITE 0 = base.pix x y ∧
    blendRGB (base.pix x y) WHITE 1 = WHITE := by
  refine ⟨?_, ⟨?_, ?_, ?_⟩, ?_, ?_⟩
  · unfold outPix
    simp [hc]
  · exact blendChan_mono _ f1 f2 hcr h0 h12
  · exact blendChan_mono _ f1 f2 hcg h0 h12
  · exact blendChan_mono _ f1 f2 hcb h0 h12
  · rcases hpx : base.pix x y with ⟨cr, cg, cb⟩
    unfold blendRGB
    simp [WHITE, blendChan_zero]
  · unfold blendRGB
    simp [WHITE, blendChan_one]

/-- Claim C7, witness: the statement at base0, pts0, corridor_px 5, fades 0
and 1, pixel (15, 15). -/
theorem C7_witness :
    outPix base0 pts0 5 0 15 15 = blendRGB (base0.pix 15 15) WHITE 0 ∧
    ((blendRGB (base0.pix 15 15) WHITE 0).r ≤ (blendRGB (base0.pix 15 15) WHITE 1).r ∧
     (blendRGB (base0.pix 15 15) WHITE 0).g ≤ (blendRGB (base0.pix 15 15) WHITE 1).g ∧
     (blendRGB (base0.pix 15 15) WHITE 0).b ≤ (blendRGB (base0.pix 15 15) WHITE 1).b) ∧
    blendRGB (base0.pix 15 15) WHITE 0 = base0.pix 15 15 ∧
    blendRGB (base0.pix 15 15) WHITE 1 = WHITE :=
  C7_thm base0 pts0 5 0 1 15 15 (by decide) (by decide) (by decide)
    (by decide) (by decide) (by decide) (by decide)

/-- The parameter phase never produces the successful-PNG response. -/
theorem parsePhase_no_png (body : Option JVal) (r : MergeResp) (p : PNGData)
    (h : parsePhase body = .error r) : r ≠ MergeResp.png p := by
  intro hr
  subst hr
  rcases body with _ | data
  · simp [parsePhase] at h
  · simp only [parsePhase] at h
    by_cases ht : truthy data
    · rw [if_pos ht] at h
      rcases data with _ | n | s | b | l | d
      · simp at h
      · simp at h
      · simp at h
      · simp at h
      · simp at h
      · dsimp only at h
        rcases hpi : pyInt (pyOr (getJ d "corridor_px") (.num 0)) with e | c <;>
          simp only [hpi] at h
        · simp at h
        · rcases hpf : pyFloat (pyDefault (getJ d "outside_fade") (.num (4/5))) with e | fr <;>
            simp only [hpf] at h
          · simp at h
          · rcases hpm : pyFloat (pyDefault (getJ d "marker_alpha") (.num (7/10))) with e | mr <;>
              simp only [hpm] at h
            · simp at h
            · split at h
              · split at h <;> simp at h
              · simp at h
    · rw [if_neg ht] at h
      simp at h

/-- A successfully parsed request carries a positive corridor radius (the
check of app.py line 90). -/
theorem parsePhase_ok_pos (body : Option JVal) (req : ParsedReq)
    (h : parsePhase body = .ok req) : 0 < req.corridor := by
  rcases body with _ | data
  · simp [parsePhase] at h
  · simp only [parsePhase] at h
    by_cases ht : truthy data
    · rw [if_pos ht] at h
      rcases data with _ | n | s | b | l | d
      · simp at h
      · simp at h
      · simp at h
      · simp at h
      · simp at h
      · dsimp only at h
        rcases hpi : pyInt (pyOr (getJ d "corridor_px") (.num 0)) with e | c <;>
          simp only [hpi] at h
        · simp at h
        · rcases hpf : pyFloat (pyDefault (getJ d "outside_fade") (.num (4/5))) with e | fr <;>
            simp only [hpf] at h
          · simp at h
          · rcases hpm : pyFloat (pyDefault (getJ d "marker_alpha") (.num (7/10))) with e | mr <;>
              simp only [hpm] at h
            · simp at h
            · split at h
              · rename_i hcond
                split at h
                · injection h with h2
                  subst h2
                  simp only [Bool.and_eq_true, decide_eq_true_eq] at hcond
                  exact hcond.2
                · simp at h
              · simp at h
    · rw [if_neg ht] at h
      simp at h

/-- Point extraction preserves the length of the record list. -/
theorem extractPts_length (l : List JVal) (pts : List Q2)
    (h : extractPts l = some pts) : pts.length = l.length := by
  induction l generalizing pts with
  | nil =>
    unfold extractPts at h
    injection h with h2
    subst h2
    rfl
  | cons v rest ih =>
    unfold extractPts at h
    rcases hv : asPoint v with _ | q <;> simp only [hv] at h
    · simp at h
    · rcases he : extractPts rest with _ | ps <;> simp only [he] at h
      · simp at h
      · injection h with h2
        subst h2
        simp [ih ps he]

/-- Inversion for a successful merge: a PNG response can only arise with a
fully parsed request, a stored decodable image, a point list of length at
least 2 that extracts, the rasterization stage actually run, and the payload
equal to the complete pipeline output (never a partial composite). -/
theorem merge_png_inversion (st : Store) (hF : ℚ → ℚ → ℚ) (body : Option JVal)
    (p : PNGData) (h : (merge st hF body).resp = .png p) :
    ∃ req im l pts, parsePhase body = .ok req ∧
      st.lookup req.iid = some (.decodable im) ∧
      req.points = .arr l ∧ 2 ≤ l.length ∧ extractPts l = some pts ∧
      merge st hF body =
        ⟨.png ⟨mergePipeline (convertRGB im) pts req.corridor.toNat req.fade req.ma hF⟩, true⟩ ∧
      p = ⟨mergePipeline (convertRGB im) pts req.corridor.toNat req.fade req.ma hF⟩ := by
  rcases hp : parsePhase body with r | req
  · exfalso
    have hresp : (merge st hF body).resp = r := by
      unfold merge
      rw [hp]
    rw [hresp] at h
    exact parsePhase_no_png body r p hp h
  · have hm : merge st hF body = match st.lookup req.iid with
      | none => ⟨.errorJson "image not found" 404, false⟩
      | some .corrupt => ⟨.errorJson "merge failed: cannot identify image file" 500, false⟩
      | some (.decodable im) => afterDecode im req hF := by
      unfold merge
      rw [hp]
    rcases hl : st.lookup req.iid with _ | f
    · rw [hl] at hm
      rw [hm] at h
      simp at h
    · cases f with
      | corrupt =>
        rw [hl] at hm
        rw [hm] at h
        simp at h
      | decodable im =>
        rw [hl] at hm
        rw [hm] at h
        unfold afterDecode at h hm
        rcases hpt : req.points with _ | n | s | b | l | o <;> simp only [hpt] at h hm
        · simp at h
        · simp at h
        · simp at h
        · simp at h
        · by_cases hlen : l.length < 2
          · rw [if_pos hlen] at h
            simp at h
          · rw [if_neg hlen] at h hm
            rcases he : extractPts l with _ | pts <;> simp only [he] at h hm
            · simp at h
            · simp only [MergeResp.png.injEq] at h
              exact ⟨req, im, l, pts, rfl, hl, hpt, by omega, he, hm, h.symm⟩
        · simp at h

/-- Claim C6: every successful merge response has exactly the width and
height of the stored base image it was produced from (all supersampled
masks are downsampled back before compositing, and every compositing stage
preserves the native size). -/
theorem C6_thm (st : Store) (hF : ℚ → ℚ → ℚ) (body : Option JVal) (p : PNGData)
    (h : (merge st hF body).resp = .png p) :
    ∃ req im, parsePhase body = .ok req ∧
      st.lookup req.iid = some (.decodable im) ∧
      p.img.width = im.width ∧ p.img.height = im.height := by
  obtain ⟨req, im, l, pts, hp, hl, hpt, hlen, he, hm, hpeq⟩ :=
    merge_png_inversion st hF body p h
  exact ⟨req, im, hp, hl, by rw [hpeq]; rfl, by rw [hpeq]; rfl⟩

/-- Claim C6, witness: the valid request body1 against store1 produces a PNG
whose image has the 20 by 20 size of the stored image im0. -/
theorem C6_witness :
    ∃ req im, parsePhase body1 = .ok req ∧
      store1.lookup req.iid = some (.decodable im) ∧
      (PNGData.mk (mergePipeline (convertRGB im0) [(0, 0), (1, 0)] 5 0 1 hypotModel)).img.width
        = im.width ∧
      (PNGData.mk (mergePipeline (convertRGB im0) [(0, 0), (1, 0)] 5 0 1 hypotModel)).img.height
        = im.height :=
  C6_thm store1 hypotModel body1
    ⟨mergePipeline (convertRGB im0) [(0, 0), (1, 0)] 5 0 1 hypotModel⟩ rfl

/-- Claim C9: if the merge route returns a PNG then every prior stage
completed — the request parsed with a positive corridor radius, the image
decoded, at least 2 points extracted, rasterization ran — and the PNG bytes
encode the output of the complete pipeline, never a partially composited
image; conversely any failure path returns an error value and no image
payload exists in it. -/
theorem C9_thm (st : Store) (hF : ℚ → ℚ → ℚ) (body : Option JVal) (p : PNGData)
    (h : (merge st hF body).resp = .png p) :
    (merge st hF body).rasterized = true ∧
    ∃ req im l pts, parsePhase body = .ok req ∧ 0 < req.corridor ∧
      st.lookup req.iid = some (.decodable im) ∧
      req.points = .arr l ∧ extractPts l = some pts ∧ 2 ≤ pts.length ∧
      p = ⟨mergePipeline (convertRGB im) pts req.corridor.toNat req.fade req.ma hF⟩ := by
  obtain ⟨req, im, l, pts, hp, hl, hpt, hlen, he, hm, hpeq⟩ :=
    merge_png_inversion st hF body p h
  have hplen : pts.length = l.length := extractPts_length l pts he
  refine ⟨by rw [hm], req, im, l, pts, hp, parsePhase_ok_pos body req hp, hl, hpt, he, ?_, hpeq⟩
  omega

/-- Claim C9, witness: the valid request body1 against store1 reaches the
PNG branch with every stage completed. -/
theorem C9_witness :
    (merge store1 hypotModel body1).rasterized = true ∧
    ∃ req im l pts, parsePhase body1 = .ok req ∧ 0 < req.corridor ∧
      store1.lookup req.iid = some (.decodable im) ∧
      req.points = .arr l ∧ extractPts l = some pts ∧ 2 ≤ pts.length ∧
      (PNGData.mk (mergePipeline (convertRGB im0) [(0, 0), (1, 0)] 5 0 1 hypotModel))
        = ⟨mergePipeline (convertRGB im) pts req.corridor.toNat req.fade req.ma hypotModel⟩ :=
  C9_thm store1 hypotModel body1
    ⟨mergePipeline (convertRGB im0) [(0, 0), (1, 0)] 5 0 1 hypotModel⟩ rfl

/-- Two RGBA images of the same size whose pixels agree on the three color
channels (the alpha channels are unconstrained). -/
def ImgSameRGB (a b : Img RGBA) : Prop :=
  a.width = b.width ∧ a.height = b.height ∧
  ∀ x y, (a.pix x y).r = (b.pix x y).r ∧ (a.pix x y).g = (b.pix x y).g ∧
    (a.pix x y).b = (b.pix x y).b

/-- Stored files that differ at most in the alpha channel of a decodable
image. -/
def FileSameRGB : BaseFile → BaseFile → Prop
  | .decodable a, .decodable b => ImgSameRGB a b
  | .corrupt, .corrupt => True
  | _, _ => False

/-- Stores with identical names whose files differ at most in alpha. -/
def StoreSameRGB (s t : Store) : Prop :=
  List.Forall₂ (fun p q => p.1 = q.1 ∧ FileSameRGB p.2 q.2) s.files t.files

theorem convertRGB_congr (a b : Img RGBA) (h : ImgSameRGB a b) :
    convertRGB a = convertRGB b := by
  obtain ⟨hw, hh, hp⟩ := h
  have hfun : (fun (x y : ℤ) => (⟨(a.pix x y).r, (a.pix x y).g, (a.pix x y).b⟩ : RGB))
      = fun (x y : ℤ) => (⟨(b.pix x y).r, (b.pix x y).g, (b.pix x y).b⟩ : RGB) := by
    funext x y
    obtain ⟨h1, h2, h3⟩ := hp x y
    rw [h1, h2, h3]
  unfold convertRGB
  rw [hw, hh, hfun]

theorem lookup_sameRGB (s t : Store) (h : StoreSameRGB s t) (k : String) :
    (s.lookup k = none ∧ t.lookup k = none) ∨
    (s.lookup k = some .corrupt ∧ t.lookup k = some .corrupt) ∨
    (∃ a b, s.lookup k = some (.decodable a) ∧ t.lookup k = some (.decodable b)
      ∧ ImgSameRGB a b) := by
  obtain ⟨ls⟩ := s
  obtain ⟨lt⟩ := t
  unfold StoreSameRGB at h
  unfold Store.lookup
  dsimp only at h ⊢
  induction h with
  | nil =>
    left
    simp [lookupL]
  | cons hpq htail ih =>
    rename_i p q ls2 lt2
    by_cases hk : (p.1 == k) = true
    · have hq : (q.1 == k) = true := by
        rw [← hpq.1]
        exact hk
      simp only [lookupL, hk, hq]
      cases hp2 : p.2 with
      | corrupt =>
        cases hq2 : q.2 with
        | corrupt =>
          right; left
          exact ⟨rfl, rfl⟩
        | decodable b =>
          exfalso
          have hfs := hpq.2
          rw [hp2, hq2] at hfs
          exact hfs.elim
      | decodable a =>
        cases hq2 : q.2 with
        | corrupt =>
          exfalso
          have hfs := hpq.2
          rw [hp2, hq2] at hfs
          exact hfs.elim
        | decodable b =>
          right; right
          refine ⟨a, b, rfl, rfl, ?_⟩
          have hfs := hpq.2
          rw [hp2, hq2] at hfs
          exact hfs
    · have hkf : (p.1 == k) = false := by
        exact Bool.eq_false_iff.mpr hk
      have hqf : (q.1 == k) = false := by
        rw [← hpq.1]
        exact hkf
      simp only [lookupL, hkf, hqf]
      exact ih

/-- Claim C10: the merge output never depends on the alpha channel of the
stored base image (base.convert(RGB) drops it before any compositing), and
every pixel of the successful output image is a fully opaque 4-channel RGBA
value (the final alpha_composite is over an opaque background). -/
theorem C10_thm (st st2 : Store) (hF : ℚ → ℚ → ℚ) (body : Option JVal)
    (hrel : StoreSameRGB st st2) :
    merge st hF body = merge st2 hF body ∧
    (∀ p (x y : ℤ), (merge st hF body).resp = .png p → (p.img.pix x y).a = 255) := by
  constructor
  · rcases hp : parsePhase body with r | req
    · unfold merge
      rw [hp]
    · unfold merge
      rw [hp]
      dsimp only
      rcases lookup_sameRGB st st2 hrel req.iid with ⟨h1, h2⟩ | ⟨h1, h2⟩ | ⟨a, b, h1, h2, hab⟩
      · rw [h1, h2]
      · rw [h1, h2]
      · rw [h1, h2]
        dsimp only
        unfold afterDecode
        rw [convertRGB_congr a b hab]
  · intro p x y h
    obtain ⟨req, im, l, pts, hp, hl, hpt, hlen, he, hm, hpeq⟩ :=
      merge_png_inversion st hF body p h
    rw [hpeq]
    show (mergeOutPix (convertRGB im) pts req.corridor.toNat req.fade req.ma hF x y).a = 255
    unfold mergeOutPix
    exact alphaComposite_alpha _ _ rfl

/-- A stored image with a partially transparent alpha channel. -/
def imA : Img RGBA := ⟨20, 20, fun _ _ => ⟨1, 2, 3, 200⟩⟩

/-- The same image with a different alpha channel. -/
def imB : Img RGBA := ⟨20, 20, fun _ _ => ⟨1, 2, 3, 50⟩⟩

/-- a.png stored as imA. -/
def storeA : Store := ⟨[("a.png", .decodable imA)]⟩

/-- a.png stored as imB. -/
def storeB : Store := ⟨[("a.png", .decodable imB)]⟩

/-- Claim C10, witness: the two stores differing only in base alpha yield
identical merge outcomes on body1, with fully opaque output pixels. -/
theorem C10_witness :
    merge storeA hypotModel body1 = merge storeB hypotModel body1 ∧
    (∀ p (x y : ℤ), (merge storeA hypotModel body1).resp = .png p →
      (p.img.pix x y).a = 255) :=
  C10_thm storeA storeB hypotModel body1
    (List.Forall₂.cons ⟨rfl, rfl, rfl, fun _ _ => ⟨rfl, rfl, rfl⟩⟩ List.Forall₂.nil)

/-- Claim C3, counterexample.  A request whose corridor_px is the string
"abc" makes int() raise ValueError at app.py line 81 — before the try block
of line 97 — so the exception escapes the handler and Flask serves a generic
internal failure, not the bad-input classification the claim requires. -/
theorem C3_cex :
    (merge store0 hypotModel (some (.obj [("corridor_px", .str "abc")]))).resp
      = .unhandled (.valueError "invalid literal for int() with base 10") ∧
    isInputError
      (merge store0 hypotModel (some (.obj [("corridor_px", .str "abc")]))).resp = false := by
  exact ⟨rfl, rfl⟩

/-- Claim C3, amended: a malformed (non-numeric, nonempty string) corridor_px
raises an uncaught ValueError before the try block, surfacing as a generic
unhandled internal failure; and an undecodable stored base image is caught by
the blanket except and returned with the generic internal-failure
classification 500 (merge failed).  Neither failure receives the bad-input
classification; only the explicit jsonify rejections (400/404) do. -/
theorem C3_amended :
    (∀ (st : Store) (hF : ℚ → ℚ → ℚ) (d : List (String × JVal)) (s : String),
      getJ d "corridor_px" = .str s → s.isEmpty = false → pyIntOfStr s = none →
      (merge st hF (some (.obj d))).resp
        = .unhandled (.valueError "invalid literal for int() with base 10")) ∧
    (∀ (st : Store) (hF : ℚ → ℚ → ℚ) (iid : String) (pl : List JVal),
      iid.isEmpty = false → pl.isEmpty = false →
      st.lookup iid = some .corrupt →
      (merge st hF (some (.obj [("image_id", .str iid), ("points", .arr pl),
        ("corridor_px", .num 5)]))).resp
        = .errorJson "merge failed: cannot identify image file" 500) := by
  constructor
  · intro st hF d s hget hs hparse
    have hd : truthy (.obj d) = true := by
      rcases d with _ | ⟨p, rest⟩
      · simp [getJ] at hget
      · simp [truthy]
    have hpyor : pyOr (getJ d "corridor_px") (.num 0) = .str s := by
      rw [hget]
      unfold pyOr
      rw [if_pos (by simp [truthy, hs])]
    have hpyint : pyInt (.str s)
        = .error (.valueError "invalid literal for int() with base 10") := by
      unfold pyInt
      dsimp only
      rw [hparse]
    have hpp : parsePhase (some (.obj d))
        = .error (.unhandled (.valueError "invalid literal for int() with base 10")) := by
      simp only [parsePhase]
      rw [if_pos hd]
      rw [hpyor, hpyint]
    unfold merge
    rw [hpp]
  · intro st hF iid pl hi hp hc
    have hti : truthy (.str iid) = true := by
      simp [truthy, hi]
    have htp : truthy (.arr pl) = true := by
      simp [truthy, hp]
    have hpo : pyOr (JVal.arr pl) (.arr []) = .arr pl := by
      unfold pyOr
      rw [if_pos htp]
    have hpp : parsePhase (some (.obj [("image_id", .str iid), ("points", .arr pl),
        ("corridor_px", .num 5)]))
        = .ok ⟨iid, .arr pl, 5, clamp01 (4/5), clamp01 (7/10)⟩ := by
      simp only [parsePhase]
      rw [if_pos (show truthy (.obj [("image_id", .str iid), ("points", .arr pl),
        ("corridor_px", .num 5)]) = true from rfl)]
      rw [show pyInt (pyOr (getJ [("image_id", .str iid), ("points", .arr pl),
        ("corridor_px", .num (5 : ℚ))] "corridor_px") (.num 0)) = .ok (5 : ℤ) from rfl]
      dsimp only
      rw [show pyFloat (pyDefault (getJ [("image_id", .str iid), ("points", .arr pl),
        ("corridor_px", .num (5 : ℚ))] "outside_fade") (.num (4/5))) = .ok (4/5 : ℚ) from rfl]
      dsimp only
      rw [show pyFloat (pyDefault (getJ [("image_id", .str iid), ("points", .arr pl),
        ("corridor_px", .num (5 : ℚ))] "marker_alpha") (.num (7/10))) = .ok (7/10 : ℚ) from rfl]
      dsimp only
      rw [show getJ [("image_id", .str iid), ("points", .arr pl),
        ("corridor_px", .num (5 : ℚ))] "points" = .arr pl from rfl]
      rw [show getJ [("image_id", .str iid), ("points", .arr pl),
        ("corridor_px", .num (5 : ℚ))] "image_id" = .str iid from rfl]
      rw [hpo]
      rw [if_pos (show (truthy (JVal.str iid) && truthy (JVal.arr pl)
        && decide ((0 : ℤ) < 5)) = true from by rw [hti, htp]; decide)]
    unfold merge
    rw [hpp]
    dsimp only
    rw [hc]

/-- Claim C3, witness: the first amended conjunct applied to the empty store
and the request with corridor_px set to the string "abc". -/
theorem C3_witness :
    (merge store0 hypotModel (some (.obj [("image_id", .str "a.png"),
      ("corridor_px", .str "abc")]))).resp
      = .unhandled (.valueError "invalid literal for int() with base 10") :=
  C3_amended.1 store0 hypotModel [("image_id", .str "a.png"), ("corridor_px", .str "abc")]
    "abc" rfl rfl rfl

/-- Claim C8, counterexample.  A request with a single point whose image_id
names a stored but undecodable file reaches Image.open before the 2-point
check of app.py line 116, so it is answered by the blanket except with the
generic 500 (merge failed) — not an input-error rejection as the claim
requires for every under-2-point request.  (No rasterization happens.) -/
theorem C8_cex :
    ([pjson 0 0] : List JVal).length < 2 ∧
    (merge ⟨[("c.png", BaseFile.corrupt)]⟩ hypotModel (some (.obj
      [("image_id", .str "c.png"), ("points", .arr [pjson 0 0]),
       ("corridor_px", .num 5)]))).resp
      = .errorJson "merge failed: cannot identify image file" 500 ∧
    isInputError (merge ⟨[("c.png", BaseFile.corrupt)]⟩ hypotModel (some (.obj
      [("image_id", .str "c.png"), ("points", .arr [pjson 0 0]),
       ("corridor_px", .num 5)]))).resp = false ∧
    (merge ⟨[("c.png", BaseFile.corrupt)]⟩ hypotModel (some (.obj
      [("image_id", .str "c.png"), ("points", .arr [pjson 0 0]),
       ("corridor_px", .num 5)]))).rasterized = false := by
  exact ⟨by decide, rfl, rfl, rfl⟩

/-- Claim C8, amended: a request with a well-typed body whose corridor_px is
nonpositive, or whose points list has fewer than 2 entries, or whose
image_id names no stored file, never reaches the mask rasterization stage;
and it is rejected with the bad-input classification (400 or 404) provided
the stored file under that name, if any, is not an undecodable one (an
undecodable file opened before the 2-point check yields the generic 500
instead). -/
theorem C8_amended (st : Store) (hF : ℚ → ℚ → ℚ) (iid : String) (pl : List JVal)
    (c : ℤ)
    (hcase : c ≤ 0 ∨ pl.length < 2 ∨ st.lookup iid = none) :
    (merge st hF (some (.obj [("image_id", .str iid), ("points", .arr pl),
      ("corridor_px", .num (c : ℚ))]))).rasterized = false ∧
    (st.lookup iid ≠ some .corrupt →
      isInputError (merge st hF (some (.obj [("image_id", .str iid),
        ("points", .arr pl), ("corridor_px", .num (c : ℚ))]))).resp = true) := by
  have hpi : pyInt (pyOr (getJ [("image_id", .str iid), ("points", .arr pl),
      ("corridor_px", .num (c : ℚ))] "corridor_px") (.num 0)) = .ok c := by
    rw [show getJ [("image_id", .str iid), ("points", .arr pl),
      ("corridor_px", .num (c : ℚ))] "corridor_px" = .num (c : ℚ) from rfl]
    unfold pyOr
    by_cases hc0 : truthy (.num (c : ℚ)) = true
    · rw [if_pos hc0]
      unfold pyInt
      dsimp only
      rw [truncQ_intCast]
    · rw [if_neg hc0]
      have hc00 : c = 0 := by
        simp [truthy] at hc0
        exact_mod_cast hc0
      subst hc00
      unfold pyInt truncQ
      simp
  have hgp : getJ [("image_id", .str iid), ("points", .arr pl),
      ("corridor_px", .num (c : ℚ))] "points" = .arr pl := rfl
  have hgi : getJ [("image_id", .str iid), ("points", .arr pl),
      ("corridor_px", .num (c : ℚ))] "image_id" = .str iid := rfl
  have hparse400 : ∀ hneg : ¬ ((truthy (getJ [("image_id", .str iid), ("points", .arr pl),
      ("corridor_px", .num (c : ℚ))] "image_id")
      && truthy (pyOr (getJ [("image_id", .str iid), ("points", .arr pl),
        ("corridor_px", .num (c : ℚ))] "points") (.arr []))
      && decide (0 < c)) = true),
      parsePhase (some (.obj [("image_id", .str iid), ("points", .arr pl),
        ("corridor_px", .num (c : ℚ))]))
        = .error (.errorJson "missing image_id, points, or corridor_px" 400) := by
    intro hneg
    simp only [parsePhase]
    rw [if_pos (show truthy (.obj [("image_id", .str iid), ("points", .arr pl),
      ("corridor_px", .num (c : ℚ))]) = true from rfl)]
    rw [hpi]
    dsimp only
    rw [show pyFloat (pyDefault (getJ [("image_id", .str iid), ("points", .arr pl),
      ("corridor_px", .num (c : ℚ))] "outside_fade") (.num (4/5))) = .ok (4/5 : ℚ) from rfl]
    dsimp only
    rw [show pyFloat (pyDefault (getJ [("image_id", .str iid), ("points", .arr pl),
      ("corridor_px", .num (c : ℚ))] "marker_alpha") (.num (7/10))) = .ok (7/10 : ℚ) from rfl]
    dsimp only
    rw [if_neg hneg]
  by_cases hiid : iid.isEmpty = true
  · have hpp := hparse400 (by
      intro hx
      rw [hgi] at hx
      simp [truthy, hiid] at hx)
    constructor
    · unfold merge
      rw [hpp]
    · intro _
      unfold merge
      rw [hpp]
      rfl
  · by_cases hple : pl.isEmpty = true
    · have hpp := hparse400 (by
        intro hx
        rw [hgp] at hx
        simp [pyOr, truthy, hple] at hx)
      constructor
      · unfold merge
        rw [hpp]
      · intro _
        unfold merge
        rw [hpp]
        rfl
    · by_cases hcpos : 0 < c
      · -- all three request fields pass the line-90 check; the hypothesis
        -- leaves the short point list or the missing file
        have hti : truthy (.str iid) = true := by
          simp [truthy, hiid]
        have htp : truthy (.arr pl) = true := by
          simp [truthy, hple]
        have hpo : pyOr (JVal.arr pl) (.arr []) = .arr pl := by
          unfold pyOr
          rw [if_pos htp]
        have hpp : parsePhase (some (.obj [("image_id", .str iid), ("points", .arr pl),
            ("corridor_px", .num (c : ℚ))]))
            = .ok ⟨iid, .arr pl, c, clamp01 (4/5), clamp01 (7/10)⟩ := by
          simp only [parsePhase]
          rw [if_pos (show truthy (.obj [("image_id", .str iid), ("points", .arr pl),
            ("corridor_px", .num (c : ℚ))]) = true from rfl)]
          rw [hpi]
          dsimp only
          rw [show pyFloat (pyDefault (getJ [("image_id", .str iid), ("points", .arr pl),
            ("corridor_px", .num (c : ℚ))] "outside_fade") (.num (4/5))) = .ok (4/5 : ℚ) from rfl]
          dsimp only
          rw [show pyFloat (pyDefault (getJ [("image_id", .str iid), ("points", .arr pl),
            ("corridor_px", .num (c : ℚ))] "marker_alpha") (.num (7/10))) = .ok (7/10 : ℚ) from rfl]
          dsimp only
          rw [hgp, hgi, hpo]
          rw [if_pos (show (truthy (JVal.str iid) && truthy (JVal.arr pl)
            && decide (0 < c)) = true from by
              rw [hti, htp, decide_eq_true hcpos]
              rfl)]
        have hmm : merge st hF (some (.obj [("image_id", .str iid), ("points", .arr pl),
            ("corridor_px", .num (c : ℚ))]))
            = match st.lookup iid with
              | none => ⟨.errorJson "image not found" 404, false⟩
              | some .corrupt =>
                ⟨.errorJson "merge failed: cannot identify image file" 500, false⟩
              | some (.decodable im) =>
                afterDecode im ⟨iid, .arr pl, c, clamp01 (4/5), clamp01 (7/10)⟩ hF := by
          unfold merge
          rw [hpp]
        have hlen : pl.length < 2 ∨ st.lookup iid = none := by
          rcases hcase with h | h | h
          · omega
          · exact Or.inl h
          · exact Or.inr h
        rcases hlk : st.lookup iid with _ | f
        · rw [hlk] at hmm
          rw [hmm]
          exact ⟨rfl, fun _ => rfl⟩
        · cases f with
          | corrupt =>
            rw [hlk] at hmm
            rw [hmm]
            exact ⟨rfl, fun hnc => absurd rfl hnc⟩
          | decodable im =>
            rw [hlk] at hmm
            dsimp only at hmm
            have hl2 : pl.length < 2 := by
              rcases hlen with h | h
              · exact h
              · rw [hlk] at h
                exact absurd h (by simp)
            have had : afterDecode im ⟨iid, .arr pl, c, clamp01 (4/5), clamp01 (7/10)⟩ hF
                = ⟨.errorJson "need at least 2 points" 400, false⟩ := by
              unfold afterDecode
              dsimp only
              rw [if_pos hl2]
            rw [had] at hmm
            rw [hmm]
            exact ⟨rfl, fun _ => rfl⟩
      · have hpp := hparse400 (by
          intro hx
          have h3 : decide (0 < c) = false := decide_eq_false hcpos
          rw [h3] at hx
          simp at hx)
        constructor
        · unfold merge
          rw [hpp]
        · intro _
          unfold merge
          rw [hpp]
          rfl

/-- Claim C8, witness: the amended statement for the empty store and a
1-point request with corridor_px 5: no stored file exists, so the request is
rejected with the bad-input classification and nothing is rasterized. -/
theorem C8_witness :
    (merge store0 hypotModel (some (.obj [("image_id", .str "a.png"),
      ("points", .arr [pjson 0 0]), ("corridor_px", .num ((5 : ℤ) : ℚ))]))).rasterized
      = false ∧
    (store0.lookup "a.png" ≠ some .corrupt →
      isInputError (merge store0 hypotModel (some (.obj [("image_id", .str "a.png"),
        ("points", .arr [pjson 0 0]),
        ("corridor_px", .num ((5 : ℤ) : ℚ))]))).resp = true) :=
  C8_amended store0 hypotModel "a.png" [pjson 0 0] 5 (Or.inr (Or.inl (by decide)))
